import Mathlib

/-!
Verification of the kko-backend service (src/main.py) against its
natural-language specification.

The service is a FastAPI application that accepts a PDF upload, extracts its
text through an external document-AI service, summarizes the text and extracts
department/email pairs through an external language model, persists the result
in MongoDB, schedules notification emails, and answers questions about stored
records.  All external calls (document AI, the language model, MongoDB's
`find_one`/`insert_one`, SMTP) are modelled as explicit parameters holding the
outcome the external service produced, and each handler becomes a pure
function from those outcomes to its HTTP result plus the list of database
writes it performed.  Strings are manipulated through `List Char` so that all
definitions reduce inside the kernel.
-/

/-! ## JSON values

`json.loads` produces Python values; we embed the JSON universe.  Numbers are
modelled as integers (no claim depends on numeric values).  Objects are the
final key/value association produced by the parser. -/

inductive Json where
  | null
  | bool (b : Bool)
  | num (n : Int)
  | str (s : String)
  | arr (elems : List Json)
  | obj (fields : List (String × Json))

/-- Python `d[key]` / `d.get(key)` lookup on a JSON value: returns the value
under `key` when the value is an object containing it, otherwise `none`
(Python would raise `KeyError` / return `None`). -/
def Json.get? : Json → String → Option Json
  | .obj fields, key => fields.lookup key
  | _, _ => none

/-- Python `key in d` for a JSON value (`False` on non-dicts). -/
def Json.hasKey (j : Json) (key : String) : Bool :=
  (j.get? key).isSome

/-- Python `isinstance(x, dict)`. -/
def Json.isObj : Json → Bool
  | .obj _ => true
  | _ => false

/-- Python `isinstance(x, str)`. -/
def Json.isStr : Json → Bool
  | .str _ => true
  | _ => false

/-- Python truthiness of a JSON value: `None`, `False`, `0`, `""`, `[]` and
`{}` are falsy, everything else is truthy. -/
def Json.isTruthy : Json → Bool
  | .null => false
  | .bool b => b
  | .num n => n != 0
  | .str s => !s.data.isEmpty
  | .arr xs => !xs.isEmpty
  | .obj fs => !fs.isEmpty

/-- Truthiness of the result of `dict.get(key)`: a missing key yields `None`,
which is falsy. -/
def truthy : Option Json → Bool
  | none => false
  | some j => j.isTruthy

/-- An ASCII single-quote character, used by the Python `repr` rendering. -/
def pyQuote : String := String.singleton (Char.ofNat 39)

/-! Python `str()` / `repr()` rendering of JSON values, used by the f-string
`f"Notice Summary for {dept['name']}: {filename}"`.  Container rendering
follows Python's `repr` for lists/dicts of simple values (string escaping
inside `repr` is not modelled; no claim exercises it). -/

mutual
def Json.pyRepr : Json → String
  | .null => "None"
  | .bool true => "True"
  | .bool false => "False"
  | .num n => toString n
  | .str s => pyQuote ++ s ++ pyQuote
  | .arr xs => "[" ++ Json.pyReprElems xs ++ "]"
  | .obj fs => "\x7b" ++ Json.pyReprFields fs ++ "\x7d"

def Json.pyReprElems : List Json → String
  | [] => ""
  | [x] => x.pyRepr
  | x :: y :: xs => x.pyRepr ++ ", " ++ Json.pyReprElems (y :: xs)

def Json.pyReprFields : List (String × Json) → String
  | [] => ""
  | [(k, v)] => pyQuote ++ k ++ pyQuote ++ ": " ++ v.pyRepr
  | (k, v) :: f :: fs =>
      pyQuote ++ k ++ pyQuote ++ ": " ++ v.pyRepr ++ ", " ++ Json.pyReprFields (f :: fs)
end

/-- Python `str()` of a JSON value (as interpolated by an f-string): a string
renders as itself, every other value through its `repr`-style rendering. -/
def Json.pyStr : Json → String
  | .str s => s
  | .null => Json.pyRepr .null
  | .bool b => Json.pyRepr (.bool b)
  | .num n => Json.pyRepr (.num n)
  | .arr xs => Json.pyRepr (.arr xs)
  | .obj fs => Json.pyRepr (.obj fs)

/-! ## Python string helpers

Modelled over `List Char` so they evaluate in the kernel.  `lower()` is
modelled for ASCII letters (the case the `.pdf` check exercises). -/

/-- Python `s.lower()` (ASCII). -/
def pyLower (s : String) : String :=
  String.mk (s.data.map Char.toLower)

/-- Python `s.endswith(suffix)`. -/
def pyEndsWith (s suffix : String) : Bool :=
  suffix.data.isSuffixOf s.data

/-- The upload ingress check, src/main.py line 313:
`file.filename.lower().endswith(".pdf")`. -/
def isPdfFilename (filename : String) : Bool :=
  pyEndsWith (pyLower filename) ".pdf"

/-- Helper for Python `s.split()`: accumulates the current word (reversed) and
emits words at whitespace boundaries, discarding empty runs. -/
def wordsAux : List Char → List Char → List String
  | [], acc => if acc.isEmpty then [] else [String.mk acc.reverse]
  | c :: cs, acc =>
    if c.isWhitespace then
      if acc.isEmpty then wordsAux cs [] else String.mk acc.reverse :: wordsAux cs []
    else wordsAux cs (c :: acc)

/-- Python `s.split()` with no separator: splits on runs of whitespace and
never yields empty strings. -/
def pySplitWs (s : String) : List String :=
  wordsAux s.data []

/-- Python `sep.join(parts)`. -/
def pyJoin (sep : String) : List String → String
  | [] => ""
  | [x] => x
  | x :: y :: xs => x ++ sep ++ pyJoin sep (y :: xs)

/-- Python `s.strip()`: removes leading and trailing whitespace. -/
def pyStrip (s : String) : String :=
  String.mk (((s.data.dropWhile Char.isWhitespace).reverse.dropWhile Char.isWhitespace).reverse)

/-! ## HTTP-level result types -/

/-- An HTTP error response raised via `HTTPException` (only the status code is
tracked; detail strings do not matter to any claim). -/
structure HttpError where
  status : Nat
  deriving DecidableEq

/-- The `SummaryResponse` pydantic model, src/main.py lines 58-62.  Its
`departments` field is annotated `List[Dict[str, str]]`: pydantic accepts it
only when every department value is a string (see `pydanticStrDict`). -/
structure SummaryResponse where
  filename : String
  departments : List Json
  summary : String
  mongo_id : String

/-- pydantic validation of one entry of a `List[Dict[str, str]]` field: the
entry must be a dict and every value must be a string (in particular `None`
is rejected). -/
def pydanticStrDict (d : Json) : Bool :=
  match d with
  | .obj fs => fs.all fun kv => kv.2.isStr
  | _ => false

/-- Whether `SummaryResponse(...)` construction succeeds for a given
departments list (the other three fields are strings by construction). -/
def responseConstructible (departments : List Json) : Bool :=
  departments.all pydanticStrDict

/-! ## Extraction adapter, src/main.py lines 118-146 -/

/-- `extract_text_from_pdf`.  The parameter is the text the external Document
AI service returned for the uploaded bytes (`none` when the service call
raised).  The adapter fails (HTTP 500) when the call raised or the returned
text is empty (`if not document.text`), otherwise yields the text. -/
def extract_text_from_pdf (serviceText? : Option String) : Except Unit String :=
  match serviceText? with
  | none => .error ()
  | some text => if text.data.isEmpty then .error () else .ok text

/-! ## Summarization adapter, src/main.py lines 149-217 -/

/-- Validation of one department entry, as written at src/main.py line 204 and
repeated at line 330: `isinstance(d, dict) and "name" in d and "email" in d`. -/
def deptOk (d : Json) : Bool :=
  d.isObj && d.hasKey "name" && d.hasKey "email"

/-- `process_with_gpt4o`, the response-handling part (lines 180-211).  The
parameter is the result of `json.loads` on the raw model response: `none`
when the completion call raised or the response was not parseable JSON,
otherwise the parsed JSON value.  Every failure surfaces as an HTTP 500
(`Except.error`); on success the adapter returns the summary string and the
departments entries unchanged. -/
def process_with_gpt4o (parsed? : Option Json) : Except Unit (String × List Json) :=
  match parsed? with
  | none => .error ()
  | some parsed =>
    if parsed.isObj && parsed.hasKey "summary" && parsed.hasKey "departments" then
      match parsed.get? "summary" with
      | some (.str s) =>
        match parsed.get? "departments" with
        | some (.arr ds) =>
            if ds.all deptOk then .ok (s, ds) else .error ()
        | _ => .error ()
      | _ => .error ()
    else .error ()

/-! ## Notification list, src/main.py lines 220-230 -/

/-- One entry of the notification list built by `prepare_email_data`; the
`summary` field becomes the message body in `send_emails_async`
(`msg.set_content(email_entry["summary"])`, line 243) and `to` becomes the
recipient (line 241). -/
structure EmailEntry where
  department : Json
  summary : String
  subject : String
  /-- The `"to"` key of the entry (`to` is reserved in Lean). -/
  recipient : Json

/-- The f-string at src/main.py line 227:
`f"Notice Summary for {dept['name']}: {filename}"`. -/
def subjectLine (deptName : Json) (filename : String) : String :=
  "Notice Summary for " ++ deptName.pyStr ++ ": " ++ filename

/-- `prepare_email_data`.  A department is included exactly when
`dept.get("email")` is truthy.  `dept["name"]` raises `KeyError` when the
key is absent, aborting the whole call (`none`). -/
def prepare_email_data : List Json → String → String → Option (List EmailEntry)
  | [], _, _ => some []
  | dept :: rest, summary, filename =>
    if truthy (dept.get? "email") then
      match dept.get? "name", dept.get? "email" with
      | some n, some e =>
          (prepare_email_data rest summary filename).map
            fun tail => ⟨n, summary, subjectLine n filename, e⟩ :: tail
      | _, _ => none
    else prepare_email_data rest summary filename

/-! ## Upload handler, src/main.py lines 311-371 -/

/-- The document inserted into MongoDB at src/main.py lines 342-351 (the
`timestamp` field, produced by `datetime.utcnow()`, is environment-supplied
and not modelled; no claim mentions it). -/
structure SubmissionDoc where
  filename : String
  extracted_text : String
  summary : String
  departments : List Json
  email_data : List EmailEntry

/-- Result of one call of the upload handler: the HTTP outcome together with
the list of documents inserted into the database during the call. -/
structure UploadOutcome where
  result : Except HttpError SummaryResponse
  writes : List SubmissionDoc

/-- `upload_pdf`.  Parameters beyond the filename are the outcomes of the
external calls: the Document AI text (`serviceText?`), the parsed model
response (`gptParsed?`) and the id MongoDB generated for the insert
(`insertedId`).  The handler rejects non-`.pdf` filenames with 400, runs
extraction then summarization (each failure is a 500 with nothing written),
re-validates the departments shape (line 330; the `isinstance(summary, str)`
re-check at line 324 is omitted as the summary is the same already-validated
string), builds the notification list, inserts the document, and finally
constructs the `SummaryResponse`; a pydantic validation error there is caught
by the generic handler as a 500, after the insert has already happened. -/
def upload_pdf (filename : String) (serviceText? : Option String)
    (gptParsed? : Option Json) (insertedId : String) : UploadOutcome :=
  if isPdfFilename filename then
    match extract_text_from_pdf serviceText? with
    | .error _ => ⟨.error ⟨500⟩, []⟩
    | .ok text =>
      match process_with_gpt4o gptParsed? with
      | .error _ => ⟨.error ⟨500⟩, []⟩
      | .ok (summary, departments) =>
        if departments.all deptOk then
          match prepare_email_data departments summary filename with
          | none => ⟨.error ⟨500⟩, []⟩
          | some email_data =>
            let doc : SubmissionDoc := ⟨filename, text, summary, departments, email_data⟩
            if responseConstructible departments then
              ⟨.ok ⟨filename, departments, summary, insertedId⟩, [doc]⟩
            else
              ⟨.error ⟨500⟩, [doc]⟩
        else ⟨.error ⟨500⟩, []⟩
  else ⟨.error ⟨400⟩, []⟩

/-! ## Chat handler, src/main.py lines 259-308 and 374-386 -/

/-- The fields of a stored record read by the chat handler (lines 270-271). -/
structure StoredDoc where
  summary : String
  extracted_text : String

/-- Result of one call of `answer_question`: the HTTP outcome, whether the
database lookup was reached, and whether the language-model call was
reached. -/
structure ChatOutcome where
  result : Except HttpError String
  lookupAttempted : Bool
  llmCalled : Bool

/-- Hexadecimal digit, as accepted by `bson.ObjectId`. -/
def isHexChar (c : Char) : Bool :=
  c.isDigit || (decide (Char.ofNat 97 ≤ c) && decide (c ≤ Char.ofNat 102)) ||
    (decide (Char.ofNat 65 ≤ c) && decide (c ≤ Char.ofNat 70))

/-- Validity of a string for `bson.ObjectId(s)`, modelled from the bson
library contract: the constructor accepts exactly 24-character hexadecimal
strings and raises `InvalidId` otherwise. -/
def isValidObjectId (s : String) : Bool :=
  s.data.length == 24 && s.data.all isHexChar

/-- The word-count post-processing at src/main.py lines 294-298: answers of
more than 30 whitespace-separated words are truncated to the first 30 words
joined by single spaces; all other answers (including ones under 20 words)
are returned unchanged, the short case only logging a warning. -/
def postProcessAnswer (answer : String) : String :=
  let wc := (pySplitWs answer).length
  if wc < 20 || wc > 30 then
    if wc > 30 then pyJoin " " ((pySplitWs answer).take 30) else answer
  else answer

/-- `answer_question`.  `found?` is the record `find_one` returned for the
given id (only consulted when the id is a valid ObjectId) and `llmContent?`
the content of the model completion (`none` when that call raised).  An
invalid id makes `ObjectId(mongo_id)` raise before the lookup; the generic
`except Exception` handler at line 303 turns that into a 500.  A missing
record is a 404 raised before the model is called. -/
def answer_question (mongo_id : String) (found? : Option StoredDoc)
    (llmContent? : Option String) : ChatOutcome :=
  if isValidObjectId mongo_id then
    match found? with
    | none => ⟨.error ⟨404⟩, true, false⟩
    | some _doc =>
      match llmContent? with
      | none => ⟨.error ⟨500⟩, true, true⟩
      | some content => ⟨.ok (postProcessAnswer (pyStrip content)), true, true⟩
  else ⟨.error ⟨500⟩, false, false⟩

/-! ## Listing handler, src/main.py lines 388-431 -/

/-- The JSON object returned by `get_all_documents` (lines 417-425). -/
structure PageResponse (α : Type) where
  data : List α
  page : Int
  limit : Int
  total : Nat
  total_pages : Nat
  has_next : Bool
  has_prev : Bool

/-- Lines 397-398: `if page < 1: page = 1`. -/
def effectivePage (page : Int) : Int :=
  if page < 1 then 1 else page

/-- Lines 399-402: `if limit < 1: limit = 5` then `if limit > 50: limit = 50`. -/
def effectiveLimit (limit : Int) : Int :=
  let l := if limit < 1 then 5 else limit
  if l > 50 then 50 else l

/-- `get_all_documents`.  `db` is the collection content in the
timestamp-descending order the query sorts by; the element type is abstract
since no claim inspects record contents.  `skip = (page-1)*limit` records are
dropped and at most `limit` records returned; `total_pages` follows line 415
(`(total + limit - 1) // limit if limit else 1`). -/
def get_all_documents {α : Type} (page limit : Int) (db : List α) : PageResponse α :=
  let p := effectivePage page
  let l := effectiveLimit limit
  let total := db.length
  let skip := ((p - 1) * l).toNat
  let docs := (db.drop skip).take l.toNat
  let total_pages := if l == 0 then 1 else (total + l.toNat - 1) / l.toNat
  ⟨docs, p, l, total, total_pages, decide (p < (total_pages : Int)), decide (p > 1)⟩

/-! ## Helper lemmas -/

/-- A successful JSON key lookup implies the value is an object. -/
lemma isObj_of_get?_eq_some {p : Json} {k : String} {v : Json}
    (h : p.get? k = some v) : p.isObj = true := by
  cases p <;> first | rfl | simp [Json.get?] at h

/-- A successful association-list lookup produces a member of the list. -/
lemma lookup_mem {k : String} {v : Json} :
    ∀ {fs : List (String × Json)}, fs.lookup k = some v → (k, v) ∈ fs
  | [], h => by simp [List.lookup] at h
  | (k', v') :: fs, h => by
    cases hbe : k == k' with
    | true =>
      simp only [List.lookup, hbe] at h
      obtain rfl : v' = v := by injection h
      obtain rfl : k = k' := eq_of_beq hbe
      exact List.mem_cons_self _ _
    | false =>
      simp only [List.lookup, hbe] at h
      exact List.mem_cons_of_mem _ (lookup_mem h)

/-- `List.any` of a negated predicate is the negation of `List.all`. -/
lemma any_not_eq_not_all (f : Json → Bool) :
    ∀ ds : List Json, (ds.any fun d => !(f d)) = !(ds.all f)
  | [] => rfl
  | d :: ds => by
    simp [List.any_cons, List.all_cons, any_not_eq_not_all f ds, Bool.not_and]

/-- Characterization of a successful run of the summarization adapter: the
parsed response is an object whose `"summary"` value is the returned string,
whose `"departments"` value is the returned array, and every department entry
is an object with `"name"` and `"email"` keys. -/
lemma process_with_gpt4o_ok_iff {g? : Option Json} {s : String} {ds : List Json} :
    process_with_gpt4o g? = .ok (s, ds) ↔
      ∃ p, g? = some p ∧ p.get? "summary" = some (.str s) ∧
        p.get? "departments" = some (.arr ds) ∧ ds.all deptOk = true := by
  constructor
  · intro h
    cases g? with
    | none => simp [process_with_gpt4o] at h
    | some p =>
      refine ⟨p, rfl, ?_⟩
      rcases hs : p.get? "summary" with _ | v
      · simp [process_with_gpt4o, Json.hasKey, hs] at h
      · have hobj : p.isObj = true := isObj_of_get?_eq_some hs
        rcases hd : p.get? "departments" with _ | w
        · cases v <;> simp [process_with_gpt4o, Json.hasKey, hobj, hs, hd] at h
        · cases v <;> cases w <;>
            simp [process_with_gpt4o, Json.hasKey, hobj, hs, hd] at h
          rename_i s' ds'
          by_cases hall : ∀ x ∈ ds', deptOk x = true
          · rw [if_pos hall] at h
            simp only [Except.ok.injEq, Prod.mk.injEq] at h
            obtain ⟨rfl, rfl⟩ := h
            exact ⟨rfl, rfl, List.all_eq_true.mpr hall⟩
          · rw [if_neg hall] at h
            exact absurd h (by simp)
  · rintro ⟨p, rfl, hs, hd, hall⟩
    have hobj : p.isObj = true := isObj_of_get?_eq_some hs
    simp [process_with_gpt4o, Json.hasKey, hobj, hs, hd, hall]

/-- The error case of the summarization adapter is everything that is not a
successful run. -/
lemma process_with_gpt4o_error_iff {g? : Option Json} :
    process_with_gpt4o g? = .error () ↔
      ¬ ∃ s ds, process_with_gpt4o g? = .ok (s, ds) := by
  rcases h : process_with_gpt4o g? with u | ⟨s, ds⟩
  · cases u
    simp
  · simp

/-- The claim-side element built for one department by `prepare_email_data`:
subject `"Notice Summary for {department}: {filename}"`, recipient the
department's email value, body the summary. -/
def specEmailEntry (d : Json) (summary filename : String) : EmailEntry :=
  ⟨(d.get? "name").getD .null, summary,
   subjectLine ((d.get? "name").getD .null) filename,
   (d.get? "email").getD .null⟩

/-- On departments that passed the upload-time shape validation, the
notification list is exactly the truthy-email departments, each mapped to its
notification entry, in order. -/
lemma prepare_email_data_eq (summary filename : String) :
    ∀ ds : List Json, (∀ d ∈ ds, deptOk d = true) →
      prepare_email_data ds summary filename =
        some (ds.filterMap fun d =>
          if truthy (d.get? "email") then some (specEmailEntry d summary filename)
          else none)
  | [], _ => rfl
  | d :: ds, h => by
    have hd := h d (List.mem_cons_self d ds)
    have hrest := prepare_email_data_eq summary filename ds
      fun x hx => h x (List.mem_cons_of_mem _ hx)
    simp only [deptOk, Bool.and_eq_true, Json.hasKey, Option.isSome_iff_exists] at hd
    obtain ⟨⟨-, n, hn⟩, e, he⟩ := hd
    by_cases ht : truthy (d.get? "email") = true
    · have hte : truthy (some e) = true := by rw [← he]; exact ht
      unfold prepare_email_data
      rw [if_pos ht, hn, he, hrest]
      simp [List.filterMap_cons, ht, hte, specEmailEntry, hn, he]
    · unfold prepare_email_data
      rw [if_neg ht, hrest]
      simp [List.filterMap_cons, ht]

/-- `prepare_email_data` never raises on validated departments. -/
lemma prepare_email_data_isSome (summary filename : String) {ds : List Json}
    (h : ds.all deptOk = true) :
    ∃ l, prepare_email_data ds summary filename = some l :=
  ⟨_, prepare_email_data_eq summary filename ds (List.all_eq_true.mp h)⟩

/-- A department whose `"email"` value is JSON `null` makes pydantic reject
the `SummaryResponse` departments field. -/
lemma responseConstructible_false_of_null_email {ds : List Json} {d : Json}
    (hmem : d ∈ ds) (hnull : d.get? "email" = some .null) :
    responseConstructible ds = false := by
  apply Bool.eq_false_iff.mpr
  intro hall
  cases d with
  | obj fs =>
    have hin : ("email", Json.null) ∈ fs := lookup_mem hnull
    simp only [responseConstructible, List.all_eq_true] at hall
    have hpd := hall _ hmem
    simp only [pydanticStrDict, List.all_eq_true] at hpd
    have := hpd _ hin
    simp [Json.isStr] at this
  | null => simp [Json.get?] at hnull
  | bool b => simp [Json.get?] at hnull
  | num n => simp [Json.get?] at hnull
  | str s => simp [Json.get?] at hnull
  | arr xs => simp [Json.get?] at hnull

/-- A successful summarization yields departments passing the shape check. -/
lemma all_deptOk_of_process_ok {g? : Option Json} {s : String} {ds : List Json}
    (h : process_with_gpt4o g? = .ok (s, ds)) : ds.all deptOk = true := by
  obtain ⟨p, -, -, -, hall⟩ := process_with_gpt4o_ok_iff.mp h
  exact hall

/-! ## Claims -/

/-- C1: for every upload request (past the ingress check) in which extraction
or summarization/output-validation fails, the handler aborts with a 500
server error before the database insert is reached and no record is
persisted; conversely a write only ever happens once extraction and
summarization (including the departments shape validation) have succeeded. -/
theorem upload_stage_failure_means_no_insert
    (fn : String) (ext? : Option String) (g? : Option Json) (iid : String)
    (hpdf : isPdfFilename fn = true) :
    ((extract_text_from_pdf ext? = .error () ∨ process_with_gpt4o g? = .error ()) →
      upload_pdf fn ext? g? iid = ⟨.error ⟨500⟩, []⟩) ∧
    ((upload_pdf fn ext? g? iid).writes ≠ [] →
      ∃ text s ds, extract_text_from_pdf ext? = .ok text ∧
        process_with_gpt4o g? = .ok (s, ds) ∧ ds.all deptOk = true) := by
  constructor
  · rintro (hext | hgpt)
    · simp [upload_pdf, hpdf, hext]
    · rcases hx : extract_text_from_pdf ext? with u | text
      · simp [upload_pdf, hpdf, hx]
      · simp [upload_pdf, hpdf, hx, hgpt]
  · intro hw
    rcases hx : extract_text_from_pdf ext? with u | text
    · simp [upload_pdf, hpdf, hx] at hw
    · rcases hg : process_with_gpt4o g? with u | ⟨s, ds⟩
      · simp [upload_pdf, hpdf, hx, hg] at hw
      · exact ⟨text, s, ds, rfl, rfl, all_deptOk_of_process_ok hg⟩

/-- C1 witness: extraction failing on a concrete `.pdf` upload produces a 500
and no database write. -/
theorem upload_stage_failure_means_no_insert_witness :
    upload_pdf "a.pdf" none (some (Json.obj [])) "id1" = ⟨.error ⟨500⟩, []⟩ :=
  (upload_stage_failure_means_no_insert "a.pdf" none (some (Json.obj [])) "id1"
    (by decide)).1 (Or.inl rfl)

/-- C2: an upload whose filename does not end in ".pdf" after lowercasing is
answered with a 400 and nothing is written to the database; a filename that
does end in ".pdf" in any case passes the ingress check, so the handler never
answers it with the 400 ingress rejection. -/
theorem upload_rejects_non_pdf_filename
    (fn : String) (ext? : Option String) (g? : Option Json) (iid : String) :
    (pyEndsWith (pyLower fn) ".pdf" = false →
      upload_pdf fn ext? g? iid = ⟨.error ⟨400⟩, []⟩) ∧
    (pyEndsWith (pyLower fn) ".pdf" = true →
      (upload_pdf fn ext? g? iid).result ≠ .error ⟨400⟩) := by
  constructor
  · intro hno
    simp [upload_pdf, isPdfFilename, hno]
  · intro hyes
    have hpdf : isPdfFilename fn = true := hyes
    rcases hx : extract_text_from_pdf ext? with u | text
    · simp [upload_pdf, hpdf, hx]
    · rcases hg : process_with_gpt4o g? with u | ⟨s, ds⟩
      · simp [upload_pdf, hpdf, hx, hg]
      · have hall : ds.all deptOk = true := all_deptOk_of_process_ok hg
        obtain ⟨l, hl⟩ := prepare_email_data_isSome s fn hall
        by_cases hrc : responseConstructible ds = true
        · simp [upload_pdf, hpdf, hx, hg, hall, hl, hrc]
        · simp [upload_pdf, hpdf, hx, hg, hall, hl, hrc]

/-- C2 witness: "notes.txt" is rejected with a 400 and no write; "REPORT.PDF"
passes the ingress check. -/
theorem upload_rejects_non_pdf_filename_witness :
    upload_pdf "notes.txt" none none "id2" = ⟨.error ⟨400⟩, []⟩ ∧
    (upload_pdf "REPORT.PDF" none none "id3").result ≠ .error ⟨400⟩ :=
  ⟨(upload_rejects_non_pdf_filename "notes.txt" none none "id2").1 (by decide),
   (upload_rejects_non_pdf_filename "REPORT.PDF" none none "id3").2 (by decide)⟩

/-- C3 (amended): at upload time (departments passed the shape validation)
the notification list contains exactly one entry for each department whose
email value is truthy (so non-null and non-empty) and none for the others;
each entry carries subject `"Notice Summary for {department}: {filename}"`,
the department's email as recipient, and the summary as body. -/
theorem notification_list_structure
    (departments : List Json) (summary filename : String)
    (h : ∀ d ∈ departments, deptOk d = true) :
    prepare_email_data departments summary filename =
      some (departments.filterMap fun d =>
        if truthy (d.get? "email") then some (specEmailEntry d summary filename)
        else none) :=
  prepare_email_data_eq summary filename departments h

/-- C3 witness: of two validated departments, the one with email
"hr@x.com" yields exactly one entry with the claimed subject, recipient and
body, and the one with null email yields none. -/
theorem notification_list_structure_witness :
    prepare_email_data
      [Json.obj [("name", Json.str "HR"), ("email", Json.str "hr@x.com")],
       Json.obj [("name", Json.str "IT"), ("email", Json.null)]] "sum" "a.pdf" =
      some [⟨Json.str "HR", "sum", "Notice Summary for HR: a.pdf", Json.str "hr@x.com"⟩] := by
  rw [notification_list_structure _ _ _ (by decide)]
  rfl

/-- C3 (counterexample): a department whose email is the empty string `""` is
non-null (and passes the upload-time validation), yet `prepare_email_data`
queues no entry for it — Python truthiness skips empty strings, refuting
"exactly one entry for each department whose email is non-null". -/
theorem notification_list_skips_empty_string_email :
    prepare_email_data [Json.obj [("name", Json.str "HR"), ("email", Json.str "")]]
        "sum" "a.pdf" = some [] ∧
    Json.get? (Json.obj [("name", Json.str "HR"), ("email", Json.str "")]) "email"
      ≠ some Json.null ∧
    deptOk (Json.obj [("name", Json.str "HR"), ("email", Json.str "")]) = true :=
  ⟨rfl, fun h => Json.noConfusion (Option.some.inj h), rfl⟩

/-- The failure condition of claim C4 exactly as stated: response not
parseable, missing `"summary"`/`"departments"` keys (a non-object lacks every
key), `"summary"` not a string, or some element of `"departments"` not an
object containing both `"name"` and `"email"` keys.  A non-array departments
value has no elements, so the last clause is false for it. -/
def gptFailCondClaimed : Option Json → Bool
  | none => true
  | some p =>
      !(p.hasKey "summary") || !(p.hasKey "departments") ||
      !(match p.get? "summary" with | some (.str _) => true | _ => false) ||
      (match p.get? "departments" with
       | some (.arr ds) => ds.any fun d => !(deptOk d)
       | _ => false)

/-- The amended failure condition of C4: as claimed, plus failing whenever
the `"departments"` value is not a JSON array. -/
def gptFailCond : Option Json → Bool
  | none => true
  | some p =>
      !(p.hasKey "summary") || !(p.hasKey "departments") ||
      !(match p.get? "summary" with | some (.str _) => true | _ => false) ||
      (match p.get? "departments" with
       | some (.arr ds) => ds.any fun d => !(deptOk d)
       | _ => true)

/-- C4 (counterexample): on the parsed response
`{"summary": "s", "departments": "oops"}` the adapter fails with a server
error although none of the claim's enumerated failure conditions holds
(`"departments"` is present but not a list — a case the claim omits). -/
theorem process_with_gpt4o_fails_on_non_list_departments :
    process_with_gpt4o
        (some (Json.obj [("summary", Json.str "s"), ("departments", Json.str "oops")]))
      = .error () ∧
    gptFailCondClaimed
        (some (Json.obj [("summary", Json.str "s"), ("departments", Json.str "oops")]))
      = false :=
  ⟨rfl, rfl⟩

/-- The amended failure condition is false exactly on successful runs. -/
lemma gptFailCond_false_iff (parsed? : Option Json) :
    gptFailCond parsed? = false ↔ ∃ s ds, process_with_gpt4o parsed? = .ok (s, ds) := by
  cases parsed? with
  | none => simp [gptFailCond, process_with_gpt4o]
  | some p =>
    rcases hs : p.get? "summary" with _ | v
    · simp [gptFailCond, process_with_gpt4o, Json.hasKey, hs]
    · have hobj := isObj_of_get?_eq_some hs
      rcases hd : p.get? "departments" with _ | w
      · cases v <;> simp [gptFailCond, process_with_gpt4o, Json.hasKey, hobj, hs, hd]
      · cases v <;> cases w
        case str.arr s' ds' =>
          by_cases hall : ds'.all deptOk = true <;>
            simp [gptFailCond, process_with_gpt4o, Json.hasKey, hobj, hs, hd,
                  any_not_eq_not_all, hall]
        all_goals
          simp [gptFailCond, process_with_gpt4o, Json.hasKey, hobj, hs, hd]

/-- C4 (amended): the summarization adapter fails with a server error exactly
when the response is not parseable JSON, or lacks the `"summary"` or
`"departments"` key, or `"summary"` is not a string, or `"departments"` is
not a list, or some element of it is not an object containing both `"name"`
and `"email"` keys; otherwise it returns the `"summary"` string and the
`"departments"` list unchanged. -/
theorem process_with_gpt4o_error_characterization (parsed? : Option Json) :
    (process_with_gpt4o parsed? = .error () ↔ gptFailCond parsed? = true) ∧
    (∀ s ds, process_with_gpt4o parsed? = .ok (s, ds) →
      ∃ p, parsed? = some p ∧ p.get? "summary" = some (.str s) ∧
        p.get? "departments" = some (.arr ds)) := by
  constructor
  · rw [process_with_gpt4o_error_iff, ← gptFailCond_false_iff]
    cases hc : gptFailCond parsed? <;> simp
  · intro s ds h
    obtain ⟨p, hp, hsum, hdep, -⟩ := process_with_gpt4o_ok_iff.mp h
    exact ⟨p, hp, hsum, hdep⟩

/-- C4 witness: a concrete well-shaped response is returned unchanged. -/
theorem process_with_gpt4o_error_characterization_witness :
    ∃ p, (some (Json.obj [("summary", Json.str "ok"), ("departments", Json.arr [])]))
        = some p ∧
      p.get? "summary" = some (Json.str "ok") ∧
      p.get? "departments" = some (Json.arr []) :=
  (process_with_gpt4o_error_characterization
    (some (Json.obj [("summary", Json.str "ok"), ("departments", Json.arr [])]))).2
    "ok" [] rfl

/-- C10: when the model output passes validation but contains a department
with a null email, the upload handler inserts the record and only then fails
to construct the `SummaryResponse` (pydantic rejects a null in a
`Dict[str, str]`): the caller receives a 500 while the record remains
persisted. -/
theorem upload_persists_record_despite_response_failure
    (fn text iid s : String) (g? : Option Json) (ds : List Json)
    (hpdf : isPdfFilename fn = true)
    (htext : text.data.isEmpty = false)
    (hgpt : process_with_gpt4o g? = .ok (s, ds))
    (hnull : ∃ d ∈ ds, d.get? "email" = some .null) :
    ∃ email_data, prepare_email_data ds s fn = some email_data ∧
      upload_pdf fn (some text) g? iid =
        ⟨.error ⟨500⟩, [⟨fn, text, s, ds, email_data⟩]⟩ := by
  have hall : ds.all deptOk = true := all_deptOk_of_process_ok hgpt
  obtain ⟨l, hl⟩ := prepare_email_data_isSome s fn hall
  obtain ⟨d, hmem, hdnull⟩ := hnull
  have hrc : responseConstructible ds = false :=
    responseConstructible_false_of_null_email hmem hdnull
  refine ⟨l, hl, ?_⟩
  simp [upload_pdf, hpdf, extract_text_from_pdf, htext, hgpt, hall, hl, hrc]

/-- A department entry with a null email, for the C10 witness. -/
def deptNullEmail : Json := Json.obj [("name", Json.str "HR"), ("email", Json.null)]

/-- A validated model response containing `deptNullEmail`. -/
def gptRespNullEmail : Json :=
  Json.obj [("summary", Json.str "s"), ("departments", Json.arr [deptNullEmail])]

/-- C10 witness: a concrete upload with a null-email department ends in a 500
with the record written. -/
theorem upload_persists_record_despite_response_failure_witness :
    ∃ email_data, prepare_email_data [deptNullEmail] "s" "a.pdf" = some email_data ∧
      upload_pdf "a.pdf" (some "text") (some gptRespNullEmail) "id4" =
        ⟨.error ⟨500⟩, [⟨"a.pdf", "text", "s", [deptNullEmail], email_data⟩]⟩ :=
  upload_persists_record_despite_response_failure "a.pdf" "text" "id4" "s"
    (some gptRespNullEmail) [deptNullEmail] (by decide) (by decide) rfl
    ⟨deptNullEmail, List.mem_singleton.mpr rfl, rfl⟩

/-- C5: a chat answer of more than 30 whitespace-separated words is replaced
by its first 30 words joined by single spaces; an answer of fewer than 20
words is returned unchanged (the handler only logs a warning). -/
theorem chat_answer_truncation (answer : String) :
    ((pySplitWs answer).length > 30 →
      postProcessAnswer answer = pyJoin " " ((pySplitWs answer).take 30)) ∧
    ((pySplitWs answer).length < 20 → postProcessAnswer answer = answer) := by
  constructor
  · intro h
    have hb : (decide ((pySplitWs answer).length < 20)
        || decide ((pySplitWs answer).length > 30)) = true := by
      simp only [Bool.or_eq_true, decide_eq_true_eq]
      omega
    simp only [postProcessAnswer, hb, if_true]
    rw [if_pos h]
  · intro h
    have hb : (decide ((pySplitWs answer).length < 20)
        || decide ((pySplitWs answer).length > 30)) = true := by
      simp only [Bool.or_eq_true, decide_eq_true_eq]
      omega
    simp only [postProcessAnswer, hb, if_true]
    rw [if_neg (by omega)]

/-- C5 witness: a 45-word answer becomes its first 30 words; a 2-word answer
is returned as-is. -/
theorem chat_answer_truncation_witness :
    postProcessAnswer (pyJoin " " (List.replicate 45 "w")) =
      pyJoin " " (List.replicate 30 "w") ∧
    postProcessAnswer "too short" = "too short" := by
  constructor
  · have h := (chat_answer_truncation (pyJoin " " (List.replicate 45 "w"))).1 (by decide)
    rw [h]
    rfl
  · exact (chat_answer_truncation "too short").2 (by decide)

/-- C6 (counterexample): for limit 0 the clamp of limit into [1, 50] is 1,
but the handler's effective limit is the default 5. -/
theorem pagination_limit_not_clamped_to_one :
    effectiveLimit 0 = 5 ∧ max (1 : Int) (min 0 50) = 1 ∧ (5 : Int) ≠ 1 := by
  decide

/-- C6 (amended): the effective page is max(page, 1); the effective limit is
the default 5 whenever limit < 1, and min(limit, 50) otherwise. -/
theorem pagination_effective_params (page limit : Int) :
    effectivePage page = max page 1 ∧
    (limit < 1 → effectiveLimit limit = 5) ∧
    (1 ≤ limit → effectiveLimit limit = min limit 50) := by
  refine ⟨?_, fun h => ?_, fun h => ?_⟩
  · simp only [effectivePage]
    by_cases hp : page < 1
    · rw [if_pos hp]
      exact (max_eq_right (by omega)).symm
    · rw [if_neg hp]
      exact (max_eq_left (by omega)).symm
  · simp only [effectiveLimit]
    rw [if_pos h, if_neg (by decide)]
  · simp only [effectiveLimit]
    rw [if_neg (show ¬limit < 1 by omega)]
    by_cases h50 : limit > 50
    · rw [if_pos h50]
      exact (min_eq_right (by omega)).symm
    · rw [if_neg h50]
      exact (min_eq_left (by omega)).symm

/-- C6 witness: page -3 becomes 1; limit 0 becomes the default 5; limit 70 is
capped at 50. -/
theorem pagination_effective_params_witness :
    effectivePage (-3) = max (-3 : Int) 1 ∧ effectiveLimit 0 = 5 ∧
    effectiveLimit 70 = min (70 : Int) 50 :=
  ⟨(pagination_effective_params (-3) 0).1,
   (pagination_effective_params (-3) 0).2.1 (by decide),
   (pagination_effective_params 0 70).2.2 (by decide)⟩

/-- The effective page size is always at least 1. -/
lemma effectiveLimit_pos (limit : Int) : 1 ≤ effectiveLimit limit := by
  simp only [effectiveLimit]
  by_cases h : limit < 1
  · rw [if_pos h, if_neg (by decide)]
    omega
  · rw [if_neg h]
    by_cases h50 : limit > 50
    · rw [if_pos h50]
      omega
    · rw [if_neg h50]
      omega

/-- C7: the listing response has total_pages equal to the ceiling division of
the total record count by the effective limit, has_next exactly when the
effective page is below total_pages, has_prev exactly when it is above 1, and
a data page of at most limit records obtained by skipping (page-1)*limit
records of the collection. -/
theorem pagination_response_shape {α : Type} (db : List α) (page limit : Int) :
    (get_all_documents page limit db).total_pages
        = db.length ⌈/⌉ (effectiveLimit limit).toNat ∧
    (get_all_documents page limit db).has_next
        = decide (effectivePage page
            < ((get_all_documents page limit db).total_pages : Int)) ∧
    (get_all_documents page limit db).has_prev = decide (effectivePage page > 1) ∧
    (get_all_documents page limit db).data.length ≤ (effectiveLimit limit).toNat ∧
    (∀ i : Nat, i < (effectiveLimit limit).toNat →
      (get_all_documents page limit db).data[i]? =
        db[((effectivePage page - 1) * effectiveLimit limit).toNat + i]?) := by
  have hl := effectiveLimit_pos limit
  have hne : (effectiveLimit limit == 0) = false := by
    simp only [beq_eq_false_iff_ne, ne_eq]
    omega
  refine ⟨?_, rfl, rfl, ?_, ?_⟩
  · simp only [get_all_documents, hne, Bool.false_eq_true, if_false]
    rw [Nat.ceilDiv_eq_add_pred_div]
  · simp only [get_all_documents]
    rw [List.length_take]
    exact min_le_left _ _
  · intro i hi
    simp only [get_all_documents]
    rw [List.getElem?_take, if_pos hi, List.getElem?_drop]

/-- C7 witness: with 12 records, page 2 and limit 5 the listing returns 5
records (the first being record number 5 of the collection), 3 total pages,
and both has_next and has_prev set. -/
theorem pagination_response_shape_witness :
    (get_all_documents 2 5 (List.replicate 12 (0 : Nat))).data.length = 5 ∧
    (get_all_documents 2 5 (List.replicate 12 (0 : Nat))).total_pages = 3 ∧
    (get_all_documents 2 5 (List.replicate 12 (0 : Nat))).has_next = true ∧
    (get_all_documents 2 5 (List.replicate 12 (0 : Nat))).has_prev = true ∧
    (get_all_documents 2 5 (List.replicate 12 (0 : Nat))).data[0]? =
      (List.replicate 12 (0 : Nat))[5]? := by
  refine ⟨by decide, by decide, by decide, by decide, ?_⟩
  have h := (pagination_response_shape (List.replicate 12 (0 : Nat)) 2 5).2.2.2.2 0
    (by decide)
  rw [h]
  decide

/-- C8 (counterexample): the identifier "zzz" matches no stored record (the
store is empty), yet the handler answers 500, not 404 — the ObjectId
constructor raises before the lookup is attempted. -/
theorem chat_unknown_invalid_id_not_404 :
    answer_question "zzz" none none = ⟨.error ⟨500⟩, false, false⟩ ∧
    (⟨500⟩ : HttpError) ≠ ⟨404⟩ :=
  ⟨rfl, by decide⟩

/-- C8 (amended): a chat request whose identifier is a syntactically valid
ObjectId matching no stored record is answered with a 404 and the language
model is never called. -/
theorem chat_unknown_id_404 (mongo_id : String) (llm? : Option String)
    (hvalid : isValidObjectId mongo_id = true) :
    answer_question mongo_id none llm? = ⟨.error ⟨404⟩, true, false⟩ := by
  simp [answer_question, hvalid]

/-- C8 witness: a concrete valid, unknown id yields 404 without an LLM call. -/
theorem chat_unknown_id_404_witness :
    answer_question "0123456789abcdef01234567" none none
      = ⟨.error ⟨404⟩, true, false⟩ :=
  chat_unknown_id_404 "0123456789abcdef01234567" none (by decide)

/-- C9: a chat identifier that is not a syntactically valid ObjectId makes
the constructor raise before the lookup: the generic exception handler turns
it into a 500, the database is never queried, the model is never called, and
the client never receives a 404. -/
theorem chat_invalid_id_500 (mongo_id : String) (found? : Option StoredDoc)
    (llm? : Option String) (hinv : isValidObjectId mongo_id = false) :
    answer_question mongo_id found? llm? = ⟨.error ⟨500⟩, false, false⟩ ∧
    (answer_question mongo_id found? llm?).result ≠ .error ⟨404⟩ := by
  have h : answer_question mongo_id found? llm? = ⟨.error ⟨500⟩, false, false⟩ := by
    simp [answer_question, hinv]
  refine ⟨h, ?_⟩
  rw [h]
  simp

/-- C9 witness: a concrete malformed id yields a 500 with no lookup, even
though a record and a model answer would have been available. -/
theorem chat_invalid_id_500_witness :
    answer_question "not-an-objectid" (some ⟨"s", "t"⟩) (some "ans")
      = ⟨.error ⟨500⟩, false, false⟩ ∧
    (answer_question "not-an-objectid" (some ⟨"s", "t"⟩) (some "ans")).result
      ≠ .error ⟨404⟩ :=
  chat_invalid_id_500 "not-an-objectid" (some ⟨"s", "t"⟩) (some "ans") (by decide)
